import Mathlib

/-!
Shallow embedding of `daemon/cpugov_daemon.py` (cpugov D-Bus daemon).

The daemon's observable state is the sysfs file tree, the persisted
config file, the polkit authority and `/proc/cpuinfo`; every D-Bus
method is translated into a pure function over an explicit `World`
state, returning the new state, the list of externally visible events
(sysfs reads/writes, the polkit check, the GovernorChanged signal) and
the result or raised fault.
-/

namespace Cpugov

/-- Python-level exceptions that escape uncaught from the daemon's helpers. -/
inductive PyError where
  | attributeError
  | indexError
deriving DecidableEq, Repr

/-- A parsed JSON value, as produced by Python's `json.load`. -/
inductive Json where
  | null
  | bool (b : Bool)
  | num (n : Int)
  | str (s : String)
  | arr (xs : List Json)
  | obj (kvs : List (String × Json))

/-- State of the persisted config file `/var/lib/cpugov/config.json`:
missing or unreadable, present but not syntactically valid JSON, or
parsed into a JSON value. -/
inductive ConfigFile where
  | missing
  | invalid
  | parsed (j : Json)

/-- Faults surfaced to D-Bus callers (the `DBusException`s raised by the
daemon's methods, plus a propagated `IOError` from an unguarded sysfs
write). -/
inductive DaemonError where
  | invalidGovernor (msg : String)
  | notAuthorized (msg : String)
  | ioError (path : String)
deriving DecidableEq, Repr

/-- Externally visible events of one daemon call, in order. -/
inductive Event where
  | readSysfs (path : String)
  | writeSysfs (path : String) (value : String) (ok : Bool)
  | authCheck (sender action : String) (granted : Bool)
  | signalGovernorChanged (governor : String)
deriving DecidableEq, Repr

/-- The observable system state the daemon interacts with. -/
structure World where
  /-- sysfs files: path to content; `none` means missing or unreadable. -/
  fs : String → Option String
  /-- whether a write to this path succeeds (`false` models an `IOError`). -/
  writeOk : String → Bool
  /-- numbers `n` for which a directory `cpuN` matches the glob `cpu[0-9]*`. -/
  cpuGlob : List Nat
  /-- polkit: sender and action id to authorization decision. -/
  polkit : String → String → Bool
  /-- the persisted config file. -/
  config : ConfigFile
  /-- whether writing the config file succeeds. -/
  configWritable : Bool
  /-- lines of `/proc/cpuinfo`; `none` means unreadable. -/
  cpuinfo : Option (List String)

/- ── Constants from the source ─────────────────────────────────── -/

def SYSFS_CPU_BASE : String := "/sys/devices/system/cpu"

def GOVERNOR_PATH : String := "cpufreq/scaling_governor"

def AVAIL_GOVERNORS_PATH : String := "cpufreq/scaling_available_governors"

def CUR_FREQ_PATH : String := "cpufreq/scaling_cur_freq"

def MIN_FREQ_PATH : String := "cpufreq/cpuinfo_min_freq"

def MAX_FREQ_PATH : String := "cpufreq/cpuinfo_max_freq"

def POLKIT_ACTION_SET : String := "io.github.serverket.cpugov.set-governor"

/-- `os.path.join(SYSFS_CPU_BASE, "cpu" + n)`: the directory of core `n`. -/
def cpuDir (n : Nat) : String := SYSFS_CPU_BASE ++ "/cpu" ++ toString n

/-- `os.path.join(d, GOVERNOR_PATH)`. -/
def govPath (d : String) : String := d ++ "/" ++ GOVERNOR_PATH

/-- `os.path.join(d, AVAIL_GOVERNORS_PATH)`. -/
def availPath (d : String) : String := d ++ "/" ++ AVAIL_GOVERNORS_PATH

/- ── Python string primitives, modelled on `List Char` ─────────── -/

/-- Python `str.strip()`: drop leading and trailing whitespace. -/
def pyStrip (s : String) : String :=
  String.mk (((s.data.dropWhile Char.isWhitespace).reverse.dropWhile
    Char.isWhitespace).reverse)

/-- Worker for `pySplit`: `acc` holds the current token, reversed. -/
def pySplitAux : List Char → List Char → List String
  | [], [] => []
  | [], acc => [String.mk acc.reverse]
  | c :: cs, acc =>
    if c.isWhitespace then
      match acc with
      | [] => pySplitAux cs []
      | _ :: _ => String.mk acc.reverse :: pySplitAux cs []
    else pySplitAux cs (c :: acc)

/-- Python `str.split()` with no argument: split on whitespace runs,
dropping empty tokens. -/
def pySplit (s : String) : List String := pySplitAux s.data []

/-- `os.path.basename`: the part of the path after the last slash. -/
def basename (p : String) : String :=
  String.mk ((p.data.reverse.takeWhile (fun c => c ≠ '/')).reverse)

/- ── Helper methods of `CPUGovDaemon` ──────────────────────────── -/

/-- Insert `n` into an ascending list. -/
def insertNat (n : Nat) : List Nat → List Nat
  | [] => [n]
  | m :: ms => if n ≤ m then n :: m :: ms else m :: insertNat n ms

/-- Insertion sort, modelling Python `sorted` with the numeric key. -/
def sortNat : List Nat → List Nat
  | [] => []
  | n :: ns => insertNat n (sortNat ns)

/-- `_get_cpu_dirs`: the glob matches sorted numerically, keeping only
directories whose `scaling_governor` file exists. -/
def _get_cpu_dirs (w : World) : List String :=
  ((sortNat w.cpuGlob).map cpuDir).filter (fun d => (w.fs (govPath d)).isSome)

/-- `_read_sysfs`: read and strip; any `IOError`/`OSError` yields `""`. -/
def _read_sysfs (w : World) (path : String) : String :=
  match w.fs path with
  | some s => pyStrip s
  | none => ""

/-- Update one sysfs file's content. -/
def fsSet (w : World) (p v : String) : World :=
  { w with fs := fun q => if q = p then some v else w.fs q }

/-- `_get_cpu_model`: first `/proc/cpuinfo` line starting with
`model name`, taking the stripped text after the first colon;
`[1]` on the result of `split(":", 1)` raises `IndexError` when the
line has no colon. -/
def afterFirst (c : Char) : List Char → Option (List Char)
  | [] => none
  | x :: xs => if x = c then some xs else afterFirst c xs

def modelFromLines : List String → Except PyError String
  | [] => Except.ok "Unknown"
  | l :: ls =>
    if "model name".data.isPrefixOf l.data then
      match afterFirst ':' l.data with
      | some rest => Except.ok (pyStrip (String.mk rest))
      | none => Except.error PyError.indexError
    else modelFromLines ls

def _get_cpu_model (w : World) : Except PyError String :=
  match w.cpuinfo with
  | none => Except.ok "Unknown"
  | some lines => modelFromLines lines

/-- `_save_governor`: write `{"governor": g}` to the config file;
`IOError`/`OSError` is caught and logged, leaving the file unchanged. -/
def _save_governor (w : World) (governor : String) : World :=
  if w.configWritable then
    { w with config := ConfigFile.parsed (Json.obj [("governor", Json.str governor)]) }
  else w

/-- Python `dict.get`. -/
def lookupJson (k : String) : List (String × Json) → Option Json
  | [] => none
  | (k', v) :: rest => if k' = k then some v else lookupJson k rest

/-- `_load_saved_governor`: `IOError`, `OSError` and `JSONDecodeError`
are caught and yield `None`; `config.get("governor")` on a parsed
non-object value raises an uncaught `AttributeError`. -/
def _load_saved_governor (c : ConfigFile) : Except PyError (Option Json) :=
  match c with
  | ConfigFile.missing => Except.ok none
  | ConfigFile.invalid => Except.ok none
  | ConfigFile.parsed (Json.obj kvs) => Except.ok (lookupJson "governor" kvs)
  | ConfigFile.parsed _ => Except.error PyError.attributeError

/-- Python truthiness of a JSON value. -/
def jsonTruthy : Json → Bool
  | Json.null => false
  | Json.bool b => b
  | Json.num n => n ≠ 0
  | Json.str s => s ≠ ""
  | Json.arr xs => !xs.isEmpty
  | Json.obj kvs => !kvs.isEmpty

/-- Python falsiness of the loaded value (`if not saved`). -/
def pyFalsy : Option Json → Bool
  | none => true
  | some j => !jsonTruthy j

/- ── D-Bus methods ─────────────────────────────────────────────── -/

/-- `GetGovernor`: current governor of cpu0, `"unknown"` with no cores. -/
def GetGovernor (w : World) : String :=
  match _get_cpu_dirs w with
  | [] => "unknown"
  | d :: _ => _read_sysfs w (govPath d)

/-- `GetAvailableGovernors`: split of cpu0's available-governors file,
`[]` with no cores. -/
def GetAvailableGovernors (w : World) : List String :=
  match _get_cpu_dirs w with
  | [] => []
  | d :: _ => pySplit (_read_sysfs w (availPath d))

/-- The sysfs read `GetAvailableGovernors` performs. -/
def availReadEvents (w : World) : List Event :=
  match _get_cpu_dirs w with
  | [] => []
  | d :: _ => [Event.readSysfs (availPath d)]

/-- The apply loop of `SetGovernor`: `_write_sysfs` on every core's
governor file, with no exception handler, so the first failing write
aborts the loop and propagates; returns the state reached, the write
events attempted and the failing path, if any. -/
def applyAll (w : World) (gov : String) : List String → World × List Event × Option String
  | [] => (w, [], none)
  | d :: rest =>
    let p := govPath d
    if w.writeOk p then
      let r := applyAll (fsSet w p gov) gov rest
      (r.1, Event.writeSysfs p gov true :: r.2.1, r.2.2)
    else
      (w, [Event.writeSysfs p gov false], some p)

/-- `SetGovernor`: validate against the freshly read accepted set, check
polkit authorization, write every core's governor file, emit
`GovernorChanged`, persist, return `True`. -/
def SetGovernor (w : World) (governor sender : String) : World × List Event × Except DaemonError Bool :=
  let available := GetAvailableGovernors w
  let t0 := availReadEvents w
  if governor ∈ available then
    let granted := w.polkit sender POLKIT_ACTION_SET
    let t1 := t0 ++ [Event.authCheck sender POLKIT_ACTION_SET granted]
    if granted then
      match applyAll w governor (_get_cpu_dirs w) with
      | (w1, t2, none) =>
        (_save_governor w1 governor,
         t1 ++ t2 ++ [Event.signalGovernorChanged governor],
         Except.ok true)
      | (w1, t2, some p) =>
        (w1, t1 ++ t2, Except.error (DaemonError.ioError p))
    else
      (w, t1,
       Except.error (DaemonError.notAuthorized
         ("Not authorized for action: " ++ POLKIT_ACTION_SET)))
  else
    (w, t0,
     Except.error (DaemonError.invalidGovernor
       ("Invalid governor: " ++ governor ++ ". Available: " ++
        String.intercalate ", " available)))

/-- The restore loop of `_restore_governor`: each write is inside
`try/except`, so a failure is logged and the loop continues. -/
def restoreAll (w : World) (gov : String) : List String → World × List Event
  | [] => (w, [])
  | d :: rest =>
    let p := govPath d
    if w.writeOk p then
      let r := restoreAll (fsSet w p gov) gov rest
      (r.1, Event.writeSysfs p gov true :: r.2)
    else
      let r := restoreAll w gov rest
      (r.1, Event.writeSysfs p gov false :: r.2)

/-- `_restore_governor`: load the saved value (a raised `AttributeError`
propagates), return on a falsy value, return with no cores, skip when
the saved value is not in the freshly read accepted set (a non-string
value is never a member), else write it to every core. -/
def _restore_governor (w : World) : Except PyError (World × List Event) :=
  match _load_saved_governor w.config with
  | Except.error e => Except.error e
  | Except.ok saved =>
    if pyFalsy saved then Except.ok (w, [])
    else
      match _get_cpu_dirs w with
      | [] => Except.ok (w, [])
      | d :: _ =>
        let available := pySplit (_read_sysfs w (availPath d))
        match saved with
        | some (Json.str s) =>
          if s ∈ available then
            let r := restoreAll w s (_get_cpu_dirs w)
            Except.ok (r.1, Event.readSysfs (availPath d) :: r.2)
          else Except.ok (w, [Event.readSysfs (availPath d)])
        | _ => Except.ok (w, [Event.readSysfs (availPath d)])

/-- One entry of `GetCpuInfo`'s `per_core` array. -/
structure CoreInfo where
  name : String
  governor : String
  cur_freq_khz : String
  min_freq_khz : String
  max_freq_khz : String
deriving DecidableEq, Repr

/-- The dictionary `GetCpuInfo` returns. -/
structure CpuInfo where
  model : String
  core_count : Nat
  online : String
  per_core : List CoreInfo
deriving DecidableEq, Repr

/-- The per-core record assembled in `GetCpuInfo`'s loop. -/
def coreInfoOf (w : World) (d : String) : CoreInfo :=
  { name := basename d
    governor := _read_sysfs w (govPath d)
    cur_freq_khz := _read_sysfs w (d ++ "/" ++ CUR_FREQ_PATH)
    min_freq_khz := _read_sysfs w (d ++ "/" ++ MIN_FREQ_PATH)
    max_freq_khz := _read_sysfs w (d ++ "/" ++ MAX_FREQ_PATH) }

/-- `GetCpuInfo`: core count, model, per-core data and the online
descriptor; an `IndexError` from `_get_cpu_model` propagates. -/
def GetCpuInfo (w : World) : Except PyError CpuInfo :=
  let dirs := _get_cpu_dirs w
  match _get_cpu_model w with
  | Except.error e => Except.error e
  | Except.ok model =>
    Except.ok
      { model := model
        core_count := dirs.length
        online := _read_sysfs w (SYSFS_CPU_BASE ++ "/online")
        per_core := dirs.map (coreInfoOf w) }

/- ── Trace observations ────────────────────────────────────────── -/

/-- Is this event a sysfs write (attempted or successful)? -/
def isWriteEvent : Event → Bool
  | Event.writeSysfs _ _ _ => true
  | _ => false

/-- Is this event a polkit authorization check? -/
def isAuthEvent : Event → Bool
  | Event.authCheck _ _ _ => true
  | _ => false

/-- The sysfs write events of a trace. -/
def writeEvents (t : List Event) : List Event := t.filter isWriteEvent

/-- `true` iff, scanning the trace in order, a sysfs write appears
before any authorization check. -/
def writeBeforeAuth : List Event → Bool
  | [] => false
  | Event.authCheck _ _ _ :: _ => false
  | Event.writeSysfs _ _ _ :: _ => true
  | _ :: rest => writeBeforeAuth rest

/- ── Concrete worlds used to instantiate the theorems ──────────── -/

/-- Two cores `cpu0`, `cpu1` on `powersave`; `performance` and
`powersave` available; everything writable; authorization granted. -/
def wTwoCores : World :=
  { fs := fun p =>
      if p = govPath (cpuDir 0) then some "powersave"
      else if p = govPath (cpuDir 1) then some "powersave"
      else if p = availPath (cpuDir 0) then some "performance powersave"
      else if p = SYSFS_CPU_BASE ++ "/online" then some "0-1"
      else none
    writeOk := fun _ => true
    cpuGlob := [1, 0]
    polkit := fun _ _ => true
    config := ConfigFile.missing
    configWritable := true
    cpuinfo := some ["processor\t: 0", "model name\t: Fake CPU @ 1GHz"] }

/-- Like `wTwoCores`, but writing `cpu0`'s governor file fails. -/
def wFailCpu0 : World :=
  { wTwoCores with writeOk := fun p => decide ¬(p = govPath (cpuDir 0)) }

/-- Like `wTwoCores`, but polkit denies every request. -/
def wDenied : World :=
  { wTwoCores with polkit := fun _ _ => false }

/-- A system with no enumerable cores at all. -/
def wNoCores : World :=
  { fs := fun _ => none
    writeOk := fun _ => true
    cpuGlob := []
    polkit := fun _ _ => true
    config := ConfigFile.missing
    configWritable := true
    cpuinfo := none }

/-- No cores, and `/proc/cpuinfo` holds a `model name` line without a
colon. -/
def wNoColon : World :=
  { wNoCores with cpuinfo := some ["model name"] }

/-- Like `wTwoCores`, but the config names a governor the hardware no
longer offers. -/
def wStaleConfig : World :=
  { wTwoCores with
    config := ConfigFile.parsed (Json.obj [("governor", Json.str "ondemand")]) }

/-- Like `wTwoCores`, but the config holds `{"governor": null}`. -/
def wNullConfig : World :=
  { wTwoCores with
    config := ConfigFile.parsed (Json.obj [("governor", Json.null)]) }

/- ── Helper lemmas ─────────────────────────────────────────────── -/

theorem dropWhile_eq_self_of_not (p : Char → Bool) :
    ∀ l : List Char, (∀ c ∈ l, p c = false) → l.dropWhile p = l := by
  intro l h
  cases l with
  | nil => rfl
  | cons c cs =>
    have hc : p c = false := h c (List.mem_cons_self _ _)
    simp [List.dropWhile, hc]

theorem pyStrip_eq_self (s : String)
    (h : ∀ c ∈ s.data, c.isWhitespace = false) : pyStrip s = s := by
  unfold pyStrip
  rw [dropWhile_eq_self_of_not _ _ h]
  rw [dropWhile_eq_self_of_not]
  · rw [List.reverse_reverse]
  · intro c hc
    exact h c (List.mem_reverse.mp hc)

theorem pySplitAux_no_ws :
    ∀ (l acc : List Char), (∀ c ∈ acc, c.isWhitespace = false) →
      ∀ g ∈ pySplitAux l acc, ∀ c ∈ g.data, c.isWhitespace = false := by
  intro l
  induction l with
  | nil =>
    intro acc hacc g hg
    cases acc with
    | nil => simp [pySplitAux] at hg
    | cons a as =>
      simp only [pySplitAux, List.mem_singleton] at hg
      subst hg
      intro c hc
      exact hacc c (List.mem_reverse.mp hc)
  | cons x xs ih =>
    intro acc hacc g hg
    by_cases hx : x.isWhitespace
    · cases acc with
      | nil =>
        simp only [pySplitAux, hx, if_true] at hg
        exact ih [] (by simp) g hg
      | cons a as =>
        simp only [pySplitAux, hx, if_true, List.mem_cons] at hg
        rcases hg with hg | hg
        · subst hg
          intro c hc
          exact hacc c (List.mem_reverse.mp hc)
        · exact ih [] (by simp) g hg
    · simp only [pySplitAux, hx, if_false] at hg
      refine ih (x :: acc) ?_ g hg
      intro c hc
      rcases List.mem_cons.mp hc with hc | hc
      · subst hc; simpa using hx
      · exact hacc c hc

theorem pyStrip_of_mem_pySplit {s g : String} (h : g ∈ pySplit s) :
    pyStrip g = g :=
  pyStrip_eq_self g (pySplitAux_no_ws s.data [] (by simp) g h)

theorem availReadEvents_cases (w : World) :
    availReadEvents w = [] ∨
      ∃ p, availReadEvents w = [Event.readSysfs p] := by
  unfold availReadEvents
  cases _get_cpu_dirs w with
  | nil => exact Or.inl rfl
  | cons d rest => exact Or.inr ⟨availPath d, rfl⟩

theorem writeEvents_availReadEvents (w : World) :
    writeEvents (availReadEvents w) = [] := by
  rcases availReadEvents_cases w with h | ⟨p, h⟩ <;> rw [h] <;> rfl

theorem writeBeforeAuth_availRead_auth (w : World) (s a : String) (b : Bool)
    (t : List Event) :
    writeBeforeAuth (availReadEvents w ++ Event.authCheck s a b :: t) = false := by
  rcases availReadEvents_cases w with h | ⟨p, h⟩ <;> rw [h] <;> rfl

theorem authCheck_not_mem_availRead (w : World) (s a : String) (b : Bool) :
    Event.authCheck s a b ∉ availReadEvents w := by
  rcases availReadEvents_cases w with h | ⟨p, h⟩ <;> rw [h] <;> simp

theorem fsSet_writeOk (w : World) (p v : String) :
    (fsSet w p v).writeOk = w.writeOk := rfl

theorem applyAll_config (g : String) :
    ∀ (dirs : List String) (w : World),
      ((applyAll w g dirs).1).config = w.config := by
  intro dirs
  induction dirs with
  | nil => intro w; rfl
  | cons d rest ih =>
    intro w
    by_cases hw : w.writeOk (govPath d) = true
    · simp only [applyAll, hw, if_true]
      exact ih (fsSet w (govPath d) g)
    · simp [applyAll, hw]

theorem applyAll_configWritable (g : String) :
    ∀ (dirs : List String) (w : World),
      ((applyAll w g dirs).1).configWritable = w.configWritable := by
  intro dirs
  induction dirs with
  | nil => intro w; rfl
  | cons d rest ih =>
    intro w
    by_cases hw : w.writeOk (govPath d) = true
    · simp only [applyAll, hw, if_true]
      exact ih (fsSet w (govPath d) g)
    · simp [applyAll, hw]

theorem applyAll_events_write (g : String) :
    ∀ (dirs : List String) (w : World) (e : Event),
      e ∈ (applyAll w g dirs).2.1 → isWriteEvent e = true := by
  intro dirs
  induction dirs with
  | nil => intro w e he; simp [applyAll] at he
  | cons d rest ih =>
    intro w e he
    by_cases hw : w.writeOk (govPath d) = true
    · simp only [applyAll, hw, if_true, List.mem_cons] at he
      rcases he with rfl | he
      · rfl
      · exact ih (fsSet w (govPath d) g) e he
    · simp only [applyAll, hw] at he
      simp at he
      subst he
      rfl

theorem applyAll_ok (g : String) :
    ∀ (dirs : List String) (w : World),
      (∀ d ∈ dirs, w.writeOk (govPath d) = true) →
      (applyAll w g dirs).2.2 = none ∧
        (applyAll w g dirs).2.1 =
          dirs.map fun d => Event.writeSysfs (govPath d) g true := by
  intro dirs
  induction dirs with
  | nil => intro w _; exact ⟨rfl, rfl⟩
  | cons d rest ih =>
    intro w hw
    have hd : w.writeOk (govPath d) = true := hw d (List.mem_cons_self _ _)
    have hrest : ∀ d' ∈ rest, (fsSet w (govPath d) g).writeOk (govPath d') = true := by
      intro d' hd'
      exact hw d' (List.mem_cons_of_mem _ hd')
    have := ih (fsSet w (govPath d) g) hrest
    simp only [applyAll, hd, if_true, List.map_cons]
    exact ⟨this.1, by rw [this.2]⟩

theorem applyAll_fs_some (g : String) :
    ∀ (dirs : List String) (w : World) (q : String),
      w.fs q = some g → ((applyAll w g dirs).1).fs q = some g := by
  intro dirs
  induction dirs with
  | nil => intro w q h; exact h
  | cons d rest ih =>
    intro w q h
    by_cases hw : w.writeOk (govPath d) = true
    · simp only [applyAll, hw, if_true]
      refine ih (fsSet w (govPath d) g) q ?_
      unfold fsSet
      by_cases hq : q = govPath d <;> simp [hq, h]
    · simp [applyAll, hw, h]

theorem applyAll_fs_mem (g : String) :
    ∀ (dirs : List String) (w : World) (d : String),
      (∀ d' ∈ dirs, w.writeOk (govPath d') = true) → d ∈ dirs →
      ((applyAll w g dirs).1).fs (govPath d) = some g := by
  intro dirs
  induction dirs with
  | nil => intro w d _ hd; simp at hd
  | cons d0 rest ih =>
    intro w d hw hd
    have h0 : w.writeOk (govPath d0) = true := hw d0 (List.mem_cons_self _ _)
    simp only [applyAll, h0, if_true]
    rcases List.mem_cons.mp hd with rfl | hd
    · refine applyAll_fs_some g rest _ _ ?_
      unfold fsSet
      simp
    · refine ih (fsSet w (govPath d0) g) d ?_ hd
      intro d' hd'
      exact hw d' (List.mem_cons_of_mem _ hd')

theorem applyAll_fail (g : String) (d : String) (post : List String) :
    ∀ (pre : List String) (w : World),
      (∀ d' ∈ pre, w.writeOk (govPath d') = true) →
      w.writeOk (govPath d) = false →
      (applyAll w g (pre ++ d :: post)).2.2 = some (govPath d) ∧
        (applyAll w g (pre ++ d :: post)).2.1 =
          pre.map (fun d' => Event.writeSysfs (govPath d') g true) ++
            [Event.writeSysfs (govPath d) g false] := by
  intro pre
  induction pre with
  | nil =>
    intro w _ hd
    simp [applyAll, hd]
  | cons p0 ps ih =>
    intro w hpre hd
    have h0 : w.writeOk (govPath p0) = true := hpre p0 (List.mem_cons_self _ _)
    have hps : ∀ d' ∈ ps, (fsSet w (govPath p0) g).writeOk (govPath d') = true := by
      intro d' hd'
      exact hpre d' (List.mem_cons_of_mem _ hd')
    have := ih (fsSet w (govPath p0) g) hps hd
    simp only [List.cons_append, applyAll, h0, if_true, List.map_cons]
    exact ⟨this.1, by simpa using this.2⟩

theorem writeEvents_avail_auth (w : World) (s a : String) (b : Bool) :
    writeEvents (availReadEvents w ++ [Event.authCheck s a b]) = [] := by
  rcases availReadEvents_cases w with h | ⟨p, h⟩ <;> rw [h] <;> rfl

theorem save_governor_fs (w : World) (g : String) :
    (_save_governor w g).fs = w.fs := by
  unfold _save_governor
  by_cases h : w.configWritable = true <;> simp [h]

theorem setGov_eq_invalid (w : World) (g s : String)
    (h : g ∉ GetAvailableGovernors w) :
    SetGovernor w g s =
      (w, availReadEvents w, Except.error (DaemonError.invalidGovernor
        ("Invalid governor: " ++ g ++ ". Available: " ++
          String.intercalate ", " (GetAvailableGovernors w)))) := by
  unfold SetGovernor
  simp [h]

theorem setGov_eq_denied (w : World) (g s : String)
    (hmem : g ∈ GetAvailableGovernors w)
    (hp : w.polkit s POLKIT_ACTION_SET = false) :
    SetGovernor w g s =
      (w, availReadEvents w ++ [Event.authCheck s POLKIT_ACTION_SET false],
        Except.error (DaemonError.notAuthorized
          ("Not authorized for action: " ++ POLKIT_ACTION_SET))) := by
  unfold SetGovernor
  simp [hmem, hp]

theorem setGov_eq_granted_ok (w : World) (g s : String)
    (hmem : g ∈ GetAvailableGovernors w)
    (hp : w.polkit s POLKIT_ACTION_SET = true)
    (herr : (applyAll w g (_get_cpu_dirs w)).2.2 = none) :
    SetGovernor w g s =
      (_save_governor ((applyAll w g (_get_cpu_dirs w)).1) g,
        (availReadEvents w ++ [Event.authCheck s POLKIT_ACTION_SET true]) ++
          (applyAll w g (_get_cpu_dirs w)).2.1 ++
            [Event.signalGovernorChanged g],
        Except.ok true) := by
  unfold SetGovernor
  cases hA : applyAll w g (_get_cpu_dirs w) with
  | mk w1 r =>
    cases r with
    | mk t2 err =>
      rw [hA] at herr
      simp only at herr
      subst herr
      simp [hmem, hp]

theorem setGov_eq_granted_fail (w : World) (g s : String) (p : String)
    (hmem : g ∈ GetAvailableGovernors w)
    (hp : w.polkit s POLKIT_ACTION_SET = true)
    (herr : (applyAll w g (_get_cpu_dirs w)).2.2 = some p) :
    SetGovernor w g s =
      ((applyAll w g (_get_cpu_dirs w)).1,
        (availReadEvents w ++ [Event.authCheck s POLKIT_ACTION_SET true]) ++
          (applyAll w g (_get_cpu_dirs w)).2.1,
        Except.error (DaemonError.ioError p)) := by
  unfold SetGovernor
  cases hA : applyAll w g (_get_cpu_dirs w) with
  | mk w1 r =>
    cases r with
    | mk t2 err =>
      rw [hA] at herr
      simp only at herr
      subst herr
      simp [hmem, hp]

/- ── Claims ────────────────────────────────────────────────────── -/

/-- C9: with zero cores exposing the governor control file,
`GetGovernor` returns the literal `"unknown"`, which is in particular
not the empty string, and no fault is raised (`GetGovernor` is total). -/
theorem GetGovernor_no_cores (w : World) (h : _get_cpu_dirs w = []) :
    GetGovernor w = "unknown" ∧ GetGovernor w ≠ "" := by
  have h1 : GetGovernor w = "unknown" := by
    unfold GetGovernor
    rw [h]
  refine ⟨h1, ?_⟩
  rw [h1]
  decide

theorem GetGovernor_no_cores_witness :
    GetGovernor wNoCores = "unknown" ∧ GetGovernor wNoCores ≠ "" :=
  GetGovernor_no_cores wNoCores (by decide)

/-- C5 (counterexample): on a zero-core system, `SetGovernor` fails with
the `InvalidGovernor` (invalid-argument) fault — whose accepted-set part
is empty — not with any distinct Unavailable fault; indeed the daemon's
fault taxonomy (`DaemonError`) has no Unavailable fault at all. -/
theorem SetGovernor_no_cores_invalid_arg :
    (SetGovernor wNoCores "performance" "alice").2.2 =
      Except.error (DaemonError.invalidGovernor
        "Invalid governor: performance. Available: ") := by
  rfl

/-- C5 (amended): with zero enumerated cores, `SetGovernor` fails with
the invalid-argument fault whose accepted-set part is empty, performing
no sysfs access and leaving the world unchanged. -/
theorem SetGovernor_no_cores (w : World) (g s : String)
    (h : _get_cpu_dirs w = []) :
    SetGovernor w g s =
      (w, [], Except.error (DaemonError.invalidGovernor
        ("Invalid governor: " ++ g ++ ". Available: "))) := by
  unfold SetGovernor GetAvailableGovernors availReadEvents
  rw [h]
  simp [String.intercalate]

theorem SetGovernor_no_cores_witness :
    SetGovernor wNoCores "performance" "alice" =
      (wNoCores, [], Except.error (DaemonError.invalidGovernor
        ("Invalid governor: " ++ "performance" ++ ". Available: "))) :=
  SetGovernor_no_cores wNoCores "performance" "alice" (by decide)

/-- C8 (counterexample): on a system with zero enumerable cores whose
system descriptor contains a `model name` line with no colon,
`GetCpuInfo` raises `IndexError` instead of returning a snapshot
(`line.split(":", 1)[1]` indexes past the end). -/
theorem GetCpuInfo_no_colon_raises :
    GetCpuInfo wNoColon = Except.error PyError.indexError := by
  rfl

/-- C8 (amended): with zero enumerable cores, provided the model lookup
itself does not raise, `GetCpuInfo` returns a snapshot with core count
`0`, an empty per-core list, the best-effort model string and the
best-effort online descriptor; but a `model name` line lacking a colon
makes the whole call raise `IndexError`. -/
theorem GetCpuInfo_no_cores (w : World) (m : String)
    (hm : _get_cpu_model w = Except.ok m) (h : _get_cpu_dirs w = []) :
    GetCpuInfo w = Except.ok
      { model := m
        core_count := 0
        online := _read_sysfs w (SYSFS_CPU_BASE ++ "/online")
        per_core := [] } := by
  unfold GetCpuInfo
  rw [h, hm]
  rfl

theorem GetCpuInfo_no_cores_witness :
    GetCpuInfo wNoCores = Except.ok
      { model := "Unknown"
        core_count := 0
        online := _read_sysfs wNoCores (SYSFS_CPU_BASE ++ "/online")
        per_core := [] } :=
  GetCpuInfo_no_cores wNoCores "Unknown" rfl (by decide)

/-- C7 (counterexample): a persisted file holding the valid JSON value
`null` makes `_load_saved_governor` raise `AttributeError`
(`config.get` on a non-dict), contradicting "never raises to the
caller for every possible content". -/
theorem load_raises_on_null :
    _load_saved_governor (ConfigFile.parsed Json.null) =
      Except.error PyError.attributeError := by
  rfl

/-- C7 (amended): `_load_saved_governor` returns no governor on a
missing or unreadable file and on syntactically malformed content, and
looks the key up on a parsed JSON object; but content that parses to a
non-object JSON value raises an uncaught `AttributeError` to the
caller. -/
theorem load_saved_governor_spec (c : ConfigFile) :
    (c = ConfigFile.missing ∨ c = ConfigFile.invalid →
      _load_saved_governor c = Except.ok none) ∧
    (∀ kvs, c = ConfigFile.parsed (Json.obj kvs) →
      _load_saved_governor c = Except.ok (lookupJson "governor" kvs)) ∧
    (∀ j, c = ConfigFile.parsed j → (∀ kvs, j ≠ Json.obj kvs) →
      _load_saved_governor c = Except.error PyError.attributeError) := by
  refine ⟨?_, ?_, ?_⟩
  · rintro (rfl | rfl) <;> rfl
  · rintro kvs rfl; rfl
  · rintro j rfl hne
    cases j with
    | obj kvs => exact absurd rfl (hne kvs)
    | null => rfl
    | bool b => rfl
    | num n => rfl
    | str s => rfl
    | arr xs => rfl

theorem load_saved_governor_spec_witness :
    _load_saved_governor ConfigFile.missing = Except.ok none :=
  (load_saved_governor_spec ConfigFile.missing).1 (Or.inl rfl)

/-- C10: when the loaded persisted value is absent, `null`, or the empty
string, startup restoration returns immediately: the event trace is
empty (no sysfs file is read and no sysfs write is performed) and the
world — the persisted record included — is unchanged. -/
theorem restore_falsy_returns (w : World) (v : Option Json)
    (hload : _load_saved_governor w.config = Except.ok v)
    (hv : v = none ∨ v = some Json.null ∨ v = some (Json.str "")) :
    _restore_governor w = Except.ok (w, []) := by
  have hf : pyFalsy v = true := by
    rcases hv with rfl | rfl | rfl <;> rfl
  unfold _restore_governor
  rw [hload]
  simp [hf]

theorem restore_falsy_returns_witness :
    _restore_governor wNullConfig = Except.ok (wNullConfig, []) :=
  restore_falsy_returns wNullConfig (some Json.null) rfl (Or.inr (Or.inl rfl))

/-- C6: when the persisted record names a governor that is no longer in
the accepted set freshly read from the first enumerated core, startup
restoration is skipped without error: the only event is that read — no
sysfs write occurs — and the world, the persisted record included, is
left unchanged. -/
theorem restore_skips_unavailable (w : World) (s₀ : String)
    (d : String) (rest : List String)
    (hload : _load_saved_governor w.config = Except.ok (some (Json.str s₀)))
    (hne : s₀ ≠ "")
    (hdirs : _get_cpu_dirs w = d :: rest)
    (hmem : s₀ ∉ pySplit (_read_sysfs w (availPath d))) :
    _restore_governor w = Except.ok (w, [Event.readSysfs (availPath d)]) := by
  have hf : pyFalsy (some (Json.str s₀)) = false := by
    simp [pyFalsy, jsonTruthy, hne]
  unfold _restore_governor
  rw [hload]
  simp only [hf, Bool.false_eq_true, if_false]
  rw [hdirs]
  simp [hmem]

theorem restore_skips_unavailable_witness :
    _restore_governor wStaleConfig =
      Except.ok (wStaleConfig, [Event.readSysfs (availPath (cpuDir 0))]) :=
  restore_skips_unavailable wStaleConfig "ondemand" (cpuDir 0) [cpuDir 1]
    rfl (by decide) (by decide) (by decide)

/-- C3: for a requested governor not in the freshly read accepted set,
`SetGovernor` fails with the invalid-argument fault whose message names
both the rejected value and the accepted set, performs zero sysfs
writes, leaves the world unchanged, and never reaches the
authorization check (no auth event occurs). -/
theorem SetGovernor_invalid_governor (w : World) (g s : String)
    (h : g ∉ GetAvailableGovernors w) :
    SetGovernor w g s =
      (w, availReadEvents w, Except.error (DaemonError.invalidGovernor
        ("Invalid governor: " ++ g ++ ". Available: " ++
          String.intercalate ", " (GetAvailableGovernors w)))) ∧
    writeEvents (SetGovernor w g s).2.1 = [] ∧
    (∀ e ∈ (SetGovernor w g s).2.1, isAuthEvent e = false) := by
  have h1 : SetGovernor w g s =
      (w, availReadEvents w, Except.error (DaemonError.invalidGovernor
        ("Invalid governor: " ++ g ++ ". Available: " ++
          String.intercalate ", " (GetAvailableGovernors w)))) := by
    unfold SetGovernor
    simp [h]
  refine ⟨h1, ?_, ?_⟩
  · rw [h1]
    unfold availReadEvents
    cases _get_cpu_dirs w with
    | nil => rfl
    | cons d rest => rfl
  · rw [h1]
    unfold availReadEvents
    cases _get_cpu_dirs w with
    | nil => intro e he; simp at he
    | cons d rest =>
      intro e he
      simp only [List.mem_singleton] at he
      subst he
      rfl

/-- C2: whenever a `SetGovernor` call's authorization check runs and
does not grant the action, the call fails with the NotAuthorized fault,
performs zero sysfs writes and leaves the world unchanged; moreover in
every `SetGovernor` call, under any world, a sysfs write never occurs
before the authorization check in the event trace. -/
theorem SetGovernor_auth_gate (w : World) (g s : String) :
    (Event.authCheck s POLKIT_ACTION_SET false ∈ (SetGovernor w g s).2.1 →
      (SetGovernor w g s).2.2 = Except.error (DaemonError.notAuthorized
        ("Not authorized for action: " ++ POLKIT_ACTION_SET)) ∧
      writeEvents (SetGovernor w g s).2.1 = [] ∧
      (SetGovernor w g s).1 = w) ∧
    writeBeforeAuth (SetGovernor w g s).2.1 = false := by
  by_cases hmem : g ∈ GetAvailableGovernors w
  · by_cases hp : w.polkit s POLKIT_ACTION_SET = true
    · cases herr : (applyAll w g (_get_cpu_dirs w)).2.2 with
      | none =>
        rw [setGov_eq_granted_ok w g s hmem hp herr]
        constructor
        · intro hmemev
          exfalso
          simp only [List.mem_append] at hmemev
          rcases hmemev with ((h1 | h2) | h3) | h4
          · exact authCheck_not_mem_availRead w s POLKIT_ACTION_SET false h1
          · simp at h2
          · have := applyAll_events_write g (_get_cpu_dirs w) w _ h3
            simp [isWriteEvent] at this
          · simp at h4
        · have hshape :
              ((availReadEvents w ++ [Event.authCheck s POLKIT_ACTION_SET true]) ++
                (applyAll w g (_get_cpu_dirs w)).2.1 ++
                  [Event.signalGovernorChanged g]) =
              availReadEvents w ++ Event.authCheck s POLKIT_ACTION_SET true ::
                ((applyAll w g (_get_cpu_dirs w)).2.1 ++
                  [Event.signalGovernorChanged g]) := by
            simp
          show writeBeforeAuth _ = false
          rw [hshape, writeBeforeAuth_availRead_auth]
      | some p =>
        rw [setGov_eq_granted_fail w g s p hmem hp herr]
        constructor
        · intro hmemev
          exfalso
          simp only [List.mem_append] at hmemev
          rcases hmemev with (h1 | h2) | h3
          · exact authCheck_not_mem_availRead w s POLKIT_ACTION_SET false h1
          · simp at h2
          · have := applyAll_events_write g (_get_cpu_dirs w) w _ h3
            simp [isWriteEvent] at this
        · have hshape :
              ((availReadEvents w ++ [Event.authCheck s POLKIT_ACTION_SET true]) ++
                (applyAll w g (_get_cpu_dirs w)).2.1) =
              availReadEvents w ++ Event.authCheck s POLKIT_ACTION_SET true ::
                (applyAll w g (_get_cpu_dirs w)).2.1 := by
            simp
          show writeBeforeAuth _ = false
          rw [hshape, writeBeforeAuth_availRead_auth]
    · have hp' : w.polkit s POLKIT_ACTION_SET = false := by
        simpa using hp
      rw [setGov_eq_denied w g s hmem hp']
      constructor
      · intro _
        exact ⟨rfl, writeEvents_avail_auth w s POLKIT_ACTION_SET false, rfl⟩
      · show writeBeforeAuth
          (availReadEvents w ++ [Event.authCheck s POLKIT_ACTION_SET false]) = false
        exact writeBeforeAuth_availRead_auth w s POLKIT_ACTION_SET false []
  · rw [setGov_eq_invalid w g s hmem]
    constructor
    · intro hmemev
      exact absurd hmemev (authCheck_not_mem_availRead w s POLKIT_ACTION_SET false)
    · show writeBeforeAuth (availReadEvents w) = false
      rcases availReadEvents_cases w with h | ⟨p, h⟩ <;> rw [h] <;> rfl

theorem SetGovernor_auth_gate_witness :
    (SetGovernor wDenied "performance" "alice").2.2 =
      Except.error (DaemonError.notAuthorized
        ("Not authorized for action: " ++ POLKIT_ACTION_SET)) ∧
    writeEvents (SetGovernor wDenied "performance" "alice").2.1 = [] ∧
    (SetGovernor wDenied "performance" "alice").1 = wDenied :=
  (SetGovernor_auth_gate wDenied "performance" "alice").1 (by decide)

/-- C4: a `SetGovernor(g)` call with `g` in the accepted set,
authorization granted and no write failure (sysfs or config) returns
`true`; every enumerated core's governor file re-reads as `g`, the
`GovernorChanged(g)` signal is in the trace, and the persisted record
becomes `{"governor": g}`. -/
theorem SetGovernor_success (w : World) (g s : String)
    (hmem : g ∈ GetAvailableGovernors w)
    (hp : w.polkit s POLKIT_ACTION_SET = true)
    (hw : ∀ d ∈ _get_cpu_dirs w, w.writeOk (govPath d) = true)
    (hc : w.configWritable = true) :
    (SetGovernor w g s).2.2 = Except.ok true ∧
    (∀ d ∈ _get_cpu_dirs w, _read_sysfs (SetGovernor w g s).1 (govPath d) = g) ∧
    Event.signalGovernorChanged g ∈ (SetGovernor w g s).2.1 ∧
    (SetGovernor w g s).1.config =
      ConfigFile.parsed (Json.obj [("governor", Json.str g)]) := by
  have happly := applyAll_ok g (_get_cpu_dirs w) w hw
  have hstrip : pyStrip g = g := by
    cases hdirs : _get_cpu_dirs w with
    | nil =>
      exfalso
      unfold GetAvailableGovernors at hmem
      rw [hdirs] at hmem
      simp at hmem
    | cons d0 rest =>
      unfold GetAvailableGovernors at hmem
      rw [hdirs] at hmem
      exact pyStrip_of_mem_pySplit hmem
  rw [setGov_eq_granted_ok w g s hmem hp happly.1]
  refine ⟨rfl, ?_, ?_, ?_⟩
  · intro d hd
    show _read_sysfs (_save_governor ((applyAll w g (_get_cpu_dirs w)).1) g)
      (govPath d) = g
    unfold _read_sysfs
    rw [save_governor_fs, applyAll_fs_mem g _ w d hw hd]
    exact hstrip
  · simp
  · show (_save_governor ((applyAll w g (_get_cpu_dirs w)).1) g).config = _
    have hcw : ((applyAll w g (_get_cpu_dirs w)).1).configWritable = true := by
      rw [applyAll_configWritable]
      exact hc
    simp [_save_governor, hcw]

theorem SetGovernor_success_witness :
    (SetGovernor wTwoCores "performance" "alice").2.2 = Except.ok true ∧
    (∀ d ∈ _get_cpu_dirs wTwoCores,
      _read_sysfs (SetGovernor wTwoCores "performance" "alice").1 (govPath d) =
        "performance") ∧
    Event.signalGovernorChanged "performance" ∈
      (SetGovernor wTwoCores "performance" "alice").2.1 ∧
    (SetGovernor wTwoCores "performance" "alice").1.config =
      ConfigFile.parsed (Json.obj [("governor", Json.str "performance")]) :=
  SetGovernor_success wTwoCores "performance" "alice"
    (by decide) (by decide) (by decide) (by decide)

/-- C1 (counterexample): with two enumerated cores where the write to
`cpu0` fails with an I/O error, `SetGovernor` does not continue to
`cpu1`: the only attempted write is the failing one, `cpu1`'s governor
file is left unchanged, and the overall call fails with the propagated
I/O error — the failure is fatal to the call, not reported-and-skipped. -/
theorem SetGovernor_write_failure_counterexample :
    (SetGovernor wFailCpu0 "performance" "alice").2.2 =
      Except.error (DaemonError.ioError (govPath (cpuDir 0))) ∧
    writeEvents (SetGovernor wFailCpu0 "performance" "alice").2.1 =
      [Event.writeSysfs (govPath (cpuDir 0)) "performance" false] ∧
    (SetGovernor wFailCpu0 "performance" "alice").1.fs (govPath (cpuDir 1)) =
      some "powersave" :=
  ⟨rfl, rfl, rfl⟩

/-- C1 (amended): in `SetGovernor`'s apply phase a failing sysfs write
aborts the loop: the cores before the failing one are written, the
failing write is the last attempt (no remaining core is tried), no
`GovernorChanged` signal is emitted, nothing is persisted, and the call
fails with the propagated I/O error. -/
theorem SetGovernor_write_failure_aborts (w : World) (g s : String)
    (pre post : List String) (d : String)
    (hdirs : _get_cpu_dirs w = pre ++ d :: post)
    (hpre : ∀ d' ∈ pre, w.writeOk (govPath d') = true)
    (hd : w.writeOk (govPath d) = false)
    (hmem : g ∈ GetAvailableGovernors w)
    (hp : w.polkit s POLKIT_ACTION_SET = true) :
    (SetGovernor w g s).2.2 = Except.error (DaemonError.ioError (govPath d)) ∧
    writeEvents (SetGovernor w g s).2.1 =
      pre.map (fun d' => Event.writeSysfs (govPath d') g true) ++
        [Event.writeSysfs (govPath d) g false] ∧
    (∀ gg, Event.signalGovernorChanged gg ∉ (SetGovernor w g s).2.1) ∧
    (SetGovernor w g s).1.config = w.config := by
  have hfail := applyAll_fail g d post pre w hpre hd
  rw [← hdirs] at hfail
  rw [setGov_eq_granted_fail w g s (govPath d) hmem hp hfail.1]
  refine ⟨rfl, ?_, ?_, ?_⟩
  · show writeEvents
      ((availReadEvents w ++ [Event.authCheck s POLKIT_ACTION_SET true]) ++
        (applyAll w g (_get_cpu_dirs w)).2.1) = _
    unfold writeEvents
    rw [List.filter_append]
    have h1 : (availReadEvents w ++
        [Event.authCheck s POLKIT_ACTION_SET true]).filter isWriteEvent = [] :=
      writeEvents_avail_auth w s POLKIT_ACTION_SET true
    have h2 : ((applyAll w g (_get_cpu_dirs w)).2.1).filter isWriteEvent =
        (applyAll w g (_get_cpu_dirs w)).2.1 :=
      List.filter_eq_self.mpr
        (fun e he => applyAll_events_write g (_get_cpu_dirs w) w e he)
    rw [h1, h2, hfail.2]
    rfl
  · intro gg hmemev
    simp only [List.append_assoc, List.singleton_append, List.mem_append,
      List.mem_cons] at hmemev
    rcases hmemev with h1 | h2 | h3
    · rcases availReadEvents_cases w with h | ⟨p, h⟩ <;> rw [h] at h1 <;> simp at h1
    · simp at h2
    · have := applyAll_events_write g (_get_cpu_dirs w) w _ h3
      simp [isWriteEvent] at this
  · show ((applyAll w g (_get_cpu_dirs w)).1).config = w.config
    exact applyAll_config g (_get_cpu_dirs w) w

theorem SetGovernor_write_failure_aborts_witness :
    (SetGovernor wFailCpu0 "performance" "alice").2.2 =
      Except.error (DaemonError.ioError (govPath (cpuDir 0))) ∧
    writeEvents (SetGovernor wFailCpu0 "performance" "alice").2.1 =
      ([] : List String).map
          (fun d' => Event.writeSysfs (govPath d') "performance" true) ++
        [Event.writeSysfs (govPath (cpuDir 0)) "performance" false] ∧
    (∀ gg, Event.signalGovernorChanged gg ∉
      (SetGovernor wFailCpu0 "performance" "alice").2.1) ∧
    (SetGovernor wFailCpu0 "performance" "alice").1.config = wFailCpu0.config :=
  SetGovernor_write_failure_aborts wFailCpu0 "performance" "alice"
    [] [cpuDir 1] (cpuDir 0) (by decide) (by decide) (by decide)
    (by decide) (by decide)

theorem SetGovernor_invalid_governor_witness :
    SetGovernor wTwoCores "bogus" "alice" =
      (wTwoCores, availReadEvents wTwoCores,
        Except.error (DaemonError.invalidGovernor
          ("Invalid governor: " ++ "bogus" ++ ". Available: " ++
            String.intercalate ", " (GetAvailableGovernors wTwoCores)))) ∧
    writeEvents (SetGovernor wTwoCores "bogus" "alice").2.1 = [] ∧
    (∀ e ∈ (SetGovernor wTwoCores "bogus" "alice").2.1,
      isAuthEvent e = false) :=
  SetGovernor_invalid_governor wTwoCores "bogus" "alice" (by decide)

end Cpugov
